import Mathlib

/-!
Shallow embedding of the gitify terminal front-end (`src/main.go`).

The program is a bubbletea TUI whose core is `handleGitAction`: it maps a
selected menu entry to a sequence of external `git` invocations, collecting
user input through `huh` forms first.  We embed it as a pure function
parameterised by two oracles:

* `GitWorld` — the behaviour of the external `git` tool: for every argument
  vector, the combined output text and an optional launch/exit error (this is
  the pair `CombinedOutput` returns in Go); plus the separate
  `git status --porcelain` invocation made through `cmd.Output()`.
* `Forms` — the outcome of each interactive form: `none` models
  `form.Run()` returning an error (user cancellation / failure), `some v`
  models successful completion with the bound values `v`.

`handleGitAction` returns the displayed text together with the ordered trace
of git invocations it issued, so that claims about which commands run (and in
what order) are statable.
-/

namespace Gitify

/-- The output side of the external `git` tool.  `run args` gives the pair
(combined stdout+stderr text, optional error) produced by
`exec.Command("git", args...).CombinedOutput()`; `statusRun` gives the pair
(stdout text, optional error) of the dedicated
`exec.Command("git", "status", "--porcelain").Output()` call made by
`getUnstagedFiles`. -/
structure GitWorld where
  run : List String → String × Option String
  statusRun : String × Option String

/-- Outcomes of the interactive forms.  `none` is a failed/cancelled
`form.Run()`; `some` carries the values bound by the form fields.
For `Commit Changes` the inner `Option` models the `commitMessageAny.(string)`
type assertion: `some msg` is the (always-taken in practice) string case,
`none` the non-string case. -/
structure Forms where
  addRemoteRun : Option (String × String)
  stageRun : Option (List String)
  commitRun : Option (Option String)
  pushRun : Option (String × String × Bool)

/-- `sub` is a (char-)prefix of `s`. -/
def prefixAt : List Char → List Char → Bool
  | [], _ => true
  | _ :: _, [] => false
  | a :: as, b :: bs => a = b && prefixAt as bs

/-- `sub` occurs as a contiguous run somewhere in `s`. -/
def containsAux (sub : List Char) : List Char → Bool
  | [] => prefixAt sub []
  | c :: rest => prefixAt sub (c :: rest) || containsAux sub rest

/-- Go `strings.Contains s sub`: `sub` occurs as a contiguous substring. -/
def strContains (s sub : String) : Bool :=
  containsAux sub.data s.data

/-- Go `strings.Split s "\n"` (the only separator the program uses):
cut `s` at every newline, keeping empty pieces, so the result always has
one more piece than there are newlines. -/
def splitLinesAux : List Char → List Char → List String
  | [], acc => [String.mk acc.reverse]
  | c :: rest, acc =>
      if c = '\n' then String.mk acc.reverse :: splitLinesAux rest []
      else splitLinesAux rest (c :: acc)

/-- Go `strings.Split s "\n"`. -/
def splitLines (s : String) : List String :=
  splitLinesAux s.data []

/-- Go slice `s[n:]`: the string without its first `n` characters. -/
def strDrop (s : String) (n : Nat) : String :=
  String.mk (s.data.drop n)

/-- Go `unicode.IsSpace` on the ASCII range (space, tab, newline, vertical
tab, form feed, carriage return), the characters `strings.TrimSpace`
removes. -/
def goIsSpace (c : Char) : Bool :=
  c = ' ' || c = '\t' || c = '\n' || c = '\x0b' || c = '\x0c' || c = '\r'

/-- Go `strings.TrimSpace s`: remove leading and trailing whitespace. -/
def trimSpace (s : String) : String :=
  String.mk (((s.data.dropWhile goIsSpace).reverse.dropWhile goIsSpace).reverse)

/-- `executeGitCommand` from `main.go`: on error the text is
`fmt.Sprintf("Error: %s\n%s", err, out)`, otherwise the combined output. -/
def executeGitCommand (w : GitWorld) (args : List String) : String :=
  match w.run args with
  | (out, some e) => "Error: " ++ e ++ "\n" ++ out
  | (out, none) => out

/-- The loop body of `getUnstagedFiles`: for each line of the split status
output, keep `line[3:]` when `len(line) > 3`. -/
def parseLoop : List String → List String
  | [] => []
  | line :: rest =>
      if line.length > 3 then strDrop line 3 :: parseLoop rest
      else parseLoop rest

/-- The status parser of `getUnstagedFiles` applied to a raw status text:
split on newlines, then run the per-line loop. -/
def parseChangedFiles (out : String) : List String :=
  parseLoop (splitLines out)

/-- `getUnstagedFiles` from `main.go`: on a failed invocation return the
sentinel list, otherwise parse the porcelain output. -/
def getUnstagedFiles (w : GitWorld) : List String :=
  match w.statusRun with
  | (_, some _) => ["Error fetching status"]
  | (out, none) => parseChangedFiles out

/-- The fixed menu of `main.go`. -/
def menuOptions : List String :=
  ["Initialize Repository", "Add Remote", "Stage Changes", "Commit Changes",
   "Push to Remote", "Pull from Remote", "Show Status", "Show Branch",
   "Show Log", "Merge Branch", "View Diff"]

/-- The loop over `selectedOptions` in the `Stage Changes` case: the first
occurrence of a pseudo-option wins; `some true` means `select_all` was hit
first, `some false` means `deselect_all` was hit first, `none` means the loop
fell through. -/
def scanSelections : List String → Option Bool
  | [] => none
  | s :: rest =>
      if s = "select_all" then some true
      else if s = "deselect_all" then some false
      else scanSelections rest

/-- The `Add Remote` case body of `handleGitAction`, after the form ran.
Returns the displayed text and the trace of git invocations. -/
def addRemoteCase (w : GitWorld) (remoteName remoteURL : String) :
    String × List (List String) :=
  if remoteName = "" ∨ remoteURL = "" then
    ("Remote name and URL cannot be empty.", [])
  else
    let addArgs := ["remote", "add", remoteName, remoteURL]
    let addResult := executeGitCommand w addArgs
    if strContains addResult "error" || strContains addResult "fatal" then
      ("Failed to add remote: " ++ addResult, [addArgs])
    else
      let remotes := executeGitCommand w ["remote", "-v"]
      ("Remote added successfully: " ++ remoteName ++ " -> " ++ remoteURL ++
        "\n\nAll remotes:\n" ++ remotes, [addArgs, ["remote", "-v"]])

/-- The `Stage Changes` case body after the candidate files are known and the
multi-select form completed with `selectedOptions`. -/
def stageCase (w : GitWorld) (files selectedOptions : List String) :
    String × List (List String) :=
  if selectedOptions.length = 0 then
    ("No files selected.", [])
  else
    match scanSelections selectedOptions with
    | some true => (executeGitCommand w ("add" :: files), [("add" :: files)])
    | some false => ("No files staged.", [])
    | none =>
        (executeGitCommand w ("add" :: selectedOptions),
         [("add" :: selectedOptions)])

/-- The `Push to Remote` case body after the branch query and remote listing
succeeded and the form completed with `(selectedRemote, branchName,
setUpstream)`. -/
def pushCase (w : GitWorld) (currentBranch selectedRemote branchName₀ : String)
    (setUpstream : Bool) : String × List (List String) :=
  let branchName := if branchName₀ = "" then currentBranch else branchName₀
  let args := ["push"] ++ (if setUpstream then ["--set-upstream"] else [])
      ++ [selectedRemote, branchName]
  let result := executeGitCommand w args
  if strContains result "error" || strContains result "fatal" then
    ("Push failed: " ++ result, [args])
  else
    ("Successfully pushed to " ++ selectedRemote ++ "/" ++ branchName ++
      "\n\n" ++ result, [args])

/-- `handleGitAction` from `main.go`, with the trace of git invocations made
alongside the returned text.  A case body that ends without returning falls
through the Go `switch` to the final `return "Unknown action."`. -/
def handleGitAction (w : GitWorld) (f : Forms) (action : String) :
    String × List (List String) :=
  if action = "Initialize Repository" then
    (executeGitCommand w ["init"], [["init"]])
  else if action = "Add Remote" then
    match f.addRemoteRun with
    | some (remoteName, remoteURL) => addRemoteCase w remoteName remoteURL
    | none => ("Unknown action.", [])
  else if action = "Stage Changes" then
    let files := getUnstagedFiles w
    if files.length = 0 then
      ("No unstaged changes found.", [["status", "--porcelain"]])
    else
      match f.stageRun with
      | some selectedOptions =>
          let r := stageCase w files selectedOptions
          (r.1, ["status", "--porcelain"] :: r.2)
      | none => ("Unknown action.", [["status", "--porcelain"]])
  else if action = "Commit Changes" then
    match f.commitRun with
    | none => ("Error: Failed to run form", [])
    | some none => ("Error: Invalid commit message", [])
    | some (some commitMessage) =>
        (executeGitCommand w ["commit", "-am", commitMessage],
         [["commit", "-am", commitMessage]])
  else if action = "Push to Remote" then
    let branchArgs := ["rev-parse", "--abbrev-ref", "HEAD"]
    let currentBranch := trimSpace (executeGitCommand w branchArgs)
    if currentBranch = "" ∨ strContains currentBranch "fatal" then
      ("Failed to get current branch.", [branchArgs])
    else
      let remotesOutput := executeGitCommand w ["remote"]
      if remotesOutput = "" then
        ("No remotes found. Add a remote first.", [branchArgs, ["remote"]])
      else
        match f.pushRun with
        | some (selectedRemote, branchName₀, setUpstream) =>
            let r := pushCase w currentBranch selectedRemote branchName₀
                setUpstream
            (r.1, branchArgs :: ["remote"] :: r.2)
        | none => ("Unknown action.", [branchArgs, ["remote"]])
  else if action = "Pull from Remote" then
    (executeGitCommand w ["pull"], [["pull"]])
  else if action = "Show Status" then
    (executeGitCommand w ["status"], [["status"]])
  else if action = "Show Branch" then
    (executeGitCommand w ["branch"], [["branch"]])
  else if action = "Show Log" then
    (executeGitCommand w ["log", "--oneline"], [["log", "--oneline"]])
  else if action = "Merge Branch" then
    (executeGitCommand w ["merge", "main"], [["merge", "main"]])
  else if action = "View Diff" then
    (executeGitCommand w ["diff"], [["diff"]])
  else
    ("Unknown action.", [])

/-- The bubbletea model of `main.go`. -/
structure model where
  menuIndex : Nat
  output : String
deriving DecidableEq

/-- The command returned by `Update` (only `tea.Quit` ever appears). -/
inductive TeaCmd where
  | quit
deriving DecidableEq

/-- `model.Update` on a key message: `q` quits, `up`/`down` move the cursor
within bounds, `enter` dispatches the selected action and stores its text in
`output`. -/
def update (w : GitWorld) (f : Forms) (m : model) (key : String) :
    model × Option TeaCmd :=
  if key = "q" then (m, some TeaCmd.quit)
  else if key = "up" then
    (if m.menuIndex > 0 then { m with menuIndex := m.menuIndex - 1 } else m,
     none)
  else if key = "down" then
    (if m.menuIndex < menuOptions.length - 1 then
      { m with menuIndex := m.menuIndex + 1 }
     else m, none)
  else if key = "enter" then
    ({ m with
        output := (handleGitAction w f (menuOptions.getD m.menuIndex "")).1 },
     none)
  else (m, none)

/-- The zero-valued starting model of `main()`. -/
def initModel : model := { menuIndex := 0, output := "" }

/-- A concrete silent git world used to instantiate theorems: every
invocation succeeds with empty output. -/
def silentWorld : GitWorld :=
  { run := fun _ => ("", none), statusRun := ("", none) }

/-- A concrete git world whose porcelain status reports one modified file. -/
def oneFileWorld : GitWorld :=
  { run := fun _ => ("", none), statusRun := ("?? a.txt", none) }

/-- Forms in which every form run fails (user cancels everything). -/
def cancelForms : Forms :=
  { addRemoteRun := none, stageRun := none, commitRun := none,
    pushRun := none }

/-- A concrete git world with one changed file, a resolvable branch and one
configured remote, whose add-remote invocation prints a fatal marker and
whose push invocation prints an error marker. -/
def mixedWorld : GitWorld :=
  { run := fun args =>
      (if args = ["rev-parse", "--abbrev-ref", "HEAD"] then "main\n"
       else if args = ["remote"] then "origin\n"
       else if args = ["remote", "add", "origin", "u"] then
         "fatal: remote origin already exists"
       else if args.take 1 = ["push"] then "error: failed to push"
       else "", none),
    statusRun := ("?? a.txt", none) }

/-- Concrete completed forms used to instantiate theorems. -/
def doneForms : Forms :=
  { addRemoteRun := some ("origin", "u"), stageRun := some ["a.txt"],
    commitRun := some (some ""), pushRun := some ("origin", "", false) }

/- ### Helper lemmas -/

/-- The per-line loop of the status parser keeps exactly the lines longer
than three characters, each with its first three characters removed, in
order. -/
theorem parseLoop_eq_filter_map (ls : List String) :
    parseLoop ls =
      (ls.filter fun l => decide (l.length > 3)).map fun l => strDrop l 3 := by
  induction ls with
  | nil => rfl
  | cons l rest ih =>
      by_cases h : l.length > 3 <;> simp [parseLoop, List.filter_cons, h, ih]

/-- The selection loop hits `select_all` when it is not preceded by either
pseudo-option. -/
theorem scanSelections_select_first (pre post : List String)
    (h1 : "select_all" ∉ pre) (h2 : "deselect_all" ∉ pre) :
    scanSelections (pre ++ "select_all" :: post) = some true := by
  induction pre with
  | nil => simp [scanSelections]
  | cons p ps ih =>
      simp only [List.mem_cons, not_or] at h1 h2
      simpa [scanSelections, Ne.symm h1.1, Ne.symm h2.1] using ih h1.2 h2.2

/-- The selection loop hits `deselect_all` when it is not preceded by either
pseudo-option. -/
theorem scanSelections_deselect_first (pre post : List String)
    (h1 : "select_all" ∉ pre) (h2 : "deselect_all" ∉ pre) :
    scanSelections (pre ++ "deselect_all" :: post) = some false := by
  induction pre with
  | nil => simp [scanSelections]
  | cons p ps ih =>
      simp only [List.mem_cons, not_or] at h1 h2
      simpa [scanSelections, Ne.symm h1.1, Ne.symm h2.1] using ih h1.2 h2.2

/-- Routing: a completed Add Remote form reaches the case body. -/
theorem handle_addRemote_eq (w : GitWorld) (f : Forms) (name url : String)
    (hf : f.addRemoteRun = some (name, url)) :
    handleGitAction w f "Add Remote" = addRemoteCase w name url := by
  simp [handleGitAction, hf]

/-- Routing: a completed Push form, with the branch query succeeding and a
nonempty remote listing, reaches the case body; the branch query and the
remote listing are the two invocations made before it. -/
theorem handle_push_eq (w : GitWorld) (f : Forms) (selR br : String)
    (up : Bool) (hf : f.pushRun = some (selR, br, up))
    (hb1 : trimSpace (executeGitCommand w ["rev-parse", "--abbrev-ref", "HEAD"]) ≠ "")
    (hb2 : strContains
      (trimSpace (executeGitCommand w ["rev-parse", "--abbrev-ref", "HEAD"]))
      "fatal" = false)
    (hr : executeGitCommand w ["remote"] ≠ "") :
    handleGitAction w f "Push to Remote" =
      ((pushCase w
          (trimSpace (executeGitCommand w ["rev-parse", "--abbrev-ref", "HEAD"]))
          selR br up).1,
        ["rev-parse", "--abbrev-ref", "HEAD"] :: ["remote"] ::
          (pushCase w
            (trimSpace (executeGitCommand w ["rev-parse", "--abbrev-ref", "HEAD"]))
            selR br up).2) := by
  simp [handleGitAction, hf, hb1, hb2, hr]

/- ### Claim theorems -/

/-- Claim C2: for every string the user enters in the Commit Changes text
field (including the empty string), the dispatcher issues exactly one commit
command whose message argument is that exact text, passed through
unmodified. -/
theorem C2_commit_message_passthrough (w : GitWorld) (f : Forms)
    (msg : String) (hf : f.commitRun = some (some msg)) :
    handleGitAction w f "Commit Changes" =
      (executeGitCommand w ["commit", "-am", msg],
       [["commit", "-am", msg]]) := by
  simp [handleGitAction, hf]

/-- Witness for C2 at the empty commit message. -/
theorem C2_witness :
    handleGitAction mixedWorld doneForms "Commit Changes" =
      (executeGitCommand mixedWorld ["commit", "-am", ""],
       [["commit", "-am", ""]]) :=
  C2_commit_message_passthrough mixedWorld doneForms "" rfl

/-- Claim C6: for every status-output text, `parseChangedFiles`
(`getUnstagedFiles` on a successful invocation) returns exactly the lines of
length strictly greater than three characters, each with its first three
characters removed, in the original line order; shorter lines are
skipped. -/
theorem C6_status_line_parsing :
    (∀ out : String,
      parseChangedFiles out =
        ((splitLines out).filter fun l => decide (l.length > 3)).map
          fun l => strDrop l 3) ∧
    (∀ (w : GitWorld) (out : String), w.statusRun = (out, none) →
      getUnstagedFiles w = parseChangedFiles out) := by
  refine ⟨fun out => parseLoop_eq_filter_map _, fun w out h => ?_⟩
  unfold getUnstagedFiles
  rw [h]

/-- Witness for C6 on a concrete two-line porcelain output with one short
line. -/
theorem C6_witness :
    getUnstagedFiles oneFileWorld = parseChangedFiles "?? a.txt" ∧
    parseChangedFiles "?? a.txt\nxy" = ["a.txt"] := by
  refine ⟨C6_status_line_parsing.2 oneFileWorld "?? a.txt" rfl, ?_⟩
  rw [C6_status_line_parsing.1 "?? a.txt\nxy"]
  decide

/-- Claim C7: for every completed Add Remote form in which the bound remote
name or remote URL is empty, no add-remote command is issued and the exact
"cannot be empty" short-circuit message is returned. -/
theorem C7_add_remote_empty_field (w : GitWorld) (f : Forms)
    (name url : String) (hf : f.addRemoteRun = some (name, url))
    (h : name = "" ∨ url = "") :
    handleGitAction w f "Add Remote" =
      ("Remote name and URL cannot be empty.", []) := by
  rw [handle_addRemote_eq w f name url hf]
  unfold addRemoteCase
  rw [if_pos h]

/-- Witness for C7 at an empty remote name. -/
theorem C7_witness :
    handleGitAction mixedWorld
      { cancelForms with addRemoteRun := some ("", "u") } "Add Remote" =
      ("Remote name and URL cannot be empty.", []) :=
  C7_add_remote_empty_field mixedWorld
    { cancelForms with addRemoteRun := some ("", "u") } "" "u" rfl
    (Or.inl rfl)

/-- Claim C8: whenever the branch-resolution query of Push to Remote returns
text that is empty after trimming, the dispatcher returns the
branch-resolution failure message and the branch query is the only
invocation made: no remote-listing and no push command is issued. -/
theorem C8_push_branch_empty (w : GitWorld) (f : Forms)
    (h : trimSpace (executeGitCommand w ["rev-parse", "--abbrev-ref", "HEAD"]) = "") :
    handleGitAction w f "Push to Remote" =
      ("Failed to get current branch.",
       [["rev-parse", "--abbrev-ref", "HEAD"]]) := by
  simp [handleGitAction, h]

/-- Witness for C8 in the silent world, whose every invocation returns empty
text. -/
theorem C8_witness :
    handleGitAction silentWorld cancelForms "Push to Remote" =
      ("Failed to get current branch.",
       [["rev-parse", "--abbrev-ref", "HEAD"]]) :=
  C8_push_branch_empty silentWorld cancelForms (by decide)

/-- Claim C9: dispatching "Show Log" issues exactly one external command,
with argument list `["log", "--oneline"]`, and returns the executor's text
unmodified. -/
theorem C9_show_log (w : GitWorld) (f : Forms) :
    handleGitAction w f "Show Log" =
      (executeGitCommand w ["log", "--oneline"], [["log", "--oneline"]]) := by
  simp [handleGitAction]

/-- Counterexample to claim C1: with the cursor on "Add Remote" and the form
cancelled, the enter-key update does not keep the previously displayed
output "previous"; it overwrites it with the switch fall-through text
"Unknown action.". -/
theorem C1_counterexample :
    menuOptions.getD 1 "" = "Add Remote" ∧
    ((update silentWorld cancelForms
        { menuIndex := 1, output := "previous" } "enter").1).output
      = "Unknown action." ∧
    "Unknown action." ≠ "previous" := by
  decide

/-- Claim C1 as amended: a cancelled form does not leave the output
unchanged; the case body falls through the switch, so the dispatch returns
the fixed text "Unknown action." for Add Remote, Stage Changes and Push to
Remote (for Commit Changes, its explicit error text
"Error: Failed to run form"), and the enter-key update stores that text as
the model's new output. -/
theorem C1_cancelled_form_output (w : GitWorld) (f : Forms) (m : model) :
    (f.addRemoteRun = none →
      handleGitAction w f "Add Remote" = ("Unknown action.", [])) ∧
    (f.stageRun = none → getUnstagedFiles w ≠ [] →
      handleGitAction w f "Stage Changes" =
        ("Unknown action.", [["status", "--porcelain"]])) ∧
    (f.commitRun = none →
      handleGitAction w f "Commit Changes" =
        ("Error: Failed to run form", [])) ∧
    (f.pushRun = none →
      trimSpace (executeGitCommand w ["rev-parse", "--abbrev-ref", "HEAD"]) ≠ "" →
      strContains
        (trimSpace (executeGitCommand w ["rev-parse", "--abbrev-ref", "HEAD"]))
        "fatal" = false →
      executeGitCommand w ["remote"] ≠ "" →
      handleGitAction w f "Push to Remote" =
        ("Unknown action.",
         [["rev-parse", "--abbrev-ref", "HEAD"], ["remote"]])) ∧
    (m.menuIndex = 1 → f.addRemoteRun = none →
      ((update w f m "enter").1).output = "Unknown action.") := by
  refine ⟨fun h => ?_, fun h hne => ?_, fun h => ?_, fun h hb1 hb2 hr => ?_,
    fun hm h => ?_⟩
  · simp [handleGitAction, h]
  · rw [← List.length_pos] at hne
    simp [handleGitAction, h, Nat.ne_of_gt hne]
  · simp [handleGitAction, h]
  · simp [handleGitAction, h, hb1, hb2, hr]
  · simp [update, hm, handleGitAction, h, menuOptions]

/-- Witness for C1's amended theorem in a world with one changed file, a
resolvable branch and one remote, with every form cancelled. -/
theorem C1_witness :
    handleGitAction mixedWorld cancelForms "Add Remote" =
      ("Unknown action.", []) ∧
    handleGitAction mixedWorld cancelForms "Stage Changes" =
      ("Unknown action.", [["status", "--porcelain"]]) ∧
    handleGitAction mixedWorld cancelForms "Commit Changes" =
      ("Error: Failed to run form", []) ∧
    handleGitAction mixedWorld cancelForms "Push to Remote" =
      ("Unknown action.",
       [["rev-parse", "--abbrev-ref", "HEAD"], ["remote"]]) ∧
    ((update mixedWorld cancelForms
        { menuIndex := 1, output := "previous" } "enter").1).output
      = "Unknown action." := by
  obtain ⟨h1, h2, h3, h4, h5⟩ :=
    C1_cancelled_form_output mixedWorld cancelForms
      { menuIndex := 1, output := "previous" }
  exact ⟨h1 rfl, h2 rfl (by decide), h3 rfl,
    h4 rfl (by decide) (by decide) (by decide), h5 rfl rfl⟩

/-- One `Update` step never moves the cursor out of the menu. -/
theorem update_menuIndex_lt (w : GitWorld) (f : Forms) (m : model)
    (k : String) (h : m.menuIndex < menuOptions.length) :
    ((update w f m k).1).menuIndex < menuOptions.length := by
  unfold update
  split_ifs <;> simp_all <;> omega

/-- Claim C10: starting from the zero-valued model, every sequence of key
messages keeps `menuIndex` within `0 .. menuOptions.length - 1`; an "up" key
at index 0 and a "down" key at the last index leave `menuIndex`
unchanged. -/
theorem C10_menuIndex_in_bounds (w : GitWorld) (f : Forms) :
    (∀ keys : List String,
      (keys.foldl (fun m k => (update w f m k).1) initModel).menuIndex
        < menuOptions.length) ∧
    (∀ m : model, m.menuIndex = 0 →
      ((update w f m "up").1).menuIndex = m.menuIndex) ∧
    (∀ m : model, m.menuIndex = menuOptions.length - 1 →
      ((update w f m "down").1).menuIndex = m.menuIndex) := by
  refine ⟨fun keys => ?_, fun m hm => ?_, fun m hm => ?_⟩
  · have inv : ∀ (ks : List String) (m : model),
        m.menuIndex < menuOptions.length →
        (ks.foldl (fun m k => (update w f m k).1) m).menuIndex
          < menuOptions.length := by
      intro ks
      induction ks with
      | nil => intro m h; exact h
      | cons k rest ih =>
          intro m h
          exact ih _ (update_menuIndex_lt w f m k h)
    exact inv keys initModel (by decide)
  · simp [update, hm]
  · simp [update, hm, menuOptions]

/-- Witness for C10 on a concrete key sequence and the two boundary
models. -/
theorem C10_witness :
    ((["down", "down", "up", "enter", "x"].foldl
        (fun m k => (update silentWorld cancelForms m k).1)
        initModel).menuIndex < menuOptions.length) ∧
    ((update silentWorld cancelForms initModel "up").1).menuIndex
      = initModel.menuIndex ∧
    ((update silentWorld cancelForms
        { menuIndex := 10, output := "" } "down").1).menuIndex
      = ({ menuIndex := 10, output := "" } : model).menuIndex := by
  obtain ⟨h1, h2, h3⟩ := C10_menuIndex_in_bounds silentWorld cancelForms
  exact ⟨h1 ["down", "down", "up", "enter", "x"], h2 initModel rfl,
    h3 { menuIndex := 10, output := "" } (by decide)⟩

/-- Counterexample to claim C3: with candidate set `["a.txt"]` and the
completed selection `["deselect_all", "select_all"]` (so "select_all" is
present), no stage command is issued at all — the trace holds only the
status query — and the returned text is "No files staged.", because the
selection loop stops at the earlier "deselect_all". -/
theorem C3_counterexample :
    "select_all" ∈ ["deselect_all", "select_all"] ∧
    getUnstagedFiles oneFileWorld = ["a.txt"] ∧
    handleGitAction oneFileWorld
        { cancelForms with stageRun := some ["deselect_all", "select_all"] }
        "Stage Changes"
      = ("No files staged.", [["status", "--porcelain"]]) := by
  decide

/-- Claim C3 as amended: if "select_all" occurs in the completed selection
and no "deselect_all" (and no earlier "select_all") precedes it, the issued
stage command's path arguments equal the full original candidate file
set. -/
theorem C3_select_all_stages_all (w : GitWorld) (f : Forms)
    (pre post : List String)
    (h1 : "select_all" ∉ pre) (h2 : "deselect_all" ∉ pre)
    (hf : f.stageRun = some (pre ++ "select_all" :: post))
    (hne : getUnstagedFiles w ≠ []) :
    handleGitAction w f "Stage Changes" =
      (executeGitCommand w ("add" :: getUnstagedFiles w),
       [["status", "--porcelain"], "add" :: getUnstagedFiles w]) := by
  rw [← List.length_pos] at hne
  simp [handleGitAction, hf, Nat.ne_of_gt hne, stageCase,
    scanSelections_select_first pre post h1 h2]

/-- Witness for C3's amended theorem: a singleton "select_all" selection over
the candidate set `["a.txt"]` stages exactly `["a.txt"]`. -/
theorem C3_witness :
    handleGitAction oneFileWorld
        { cancelForms with stageRun := some ["select_all"] } "Stage Changes"
      = (executeGitCommand oneFileWorld ("add" :: getUnstagedFiles oneFileWorld),
         [["status", "--porcelain"], "add" :: getUnstagedFiles oneFileWorld]) :=
  C3_select_all_stages_all oneFileWorld
    { cancelForms with stageRun := some ["select_all"] } [] []
    (by decide) (by decide) rfl (by decide)

/-- Counterexample to claim C4: with candidate set `["a.txt"]` and the
completed selection `["select_all", "deselect_all"]` (so "deselect_all" is
present), a stage command `add a.txt` is issued anyway and the returned text
is not "No files staged.", because the selection loop stops at the earlier
"select_all". -/
theorem C4_counterexample :
    "deselect_all" ∈ ["select_all", "deselect_all"] ∧
    handleGitAction oneFileWorld
        { cancelForms with stageRun := some ["select_all", "deselect_all"] }
        "Stage Changes"
      = ("", [["status", "--porcelain"], ["add", "a.txt"]]) ∧
    ["add", "a.txt"] ∈ (handleGitAction oneFileWorld
        { cancelForms with stageRun := some ["select_all", "deselect_all"] }
        "Stage Changes").2 := by
  decide

/-- Claim C4 as amended: if "deselect_all" occurs in the completed selection
and no "select_all" (and no earlier "deselect_all") precedes it, no stage
command is issued — the status query is the only invocation — and the
returned text is "No files staged.". -/
theorem C4_deselect_all_stages_none (w : GitWorld) (f : Forms)
    (pre post : List String)
    (h1 : "select_all" ∉ pre) (h2 : "deselect_all" ∉ pre)
    (hf : f.stageRun = some (pre ++ "deselect_all" :: post))
    (hne : getUnstagedFiles w ≠ []) :
    handleGitAction w f "Stage Changes" =
      ("No files staged.", [["status", "--porcelain"]]) := by
  rw [← List.length_pos] at hne
  simp [handleGitAction, hf, Nat.ne_of_gt hne, stageCase,
    scanSelections_deselect_first pre post h1 h2]

/-- Witness for C4's amended theorem: a singleton "deselect_all" selection
over the candidate set `["a.txt"]` stages nothing. -/
theorem C4_witness :
    handleGitAction oneFileWorld
        { cancelForms with stageRun := some ["deselect_all"] } "Stage Changes"
      = ("No files staged.", [["status", "--porcelain"]]) :=
  C4_deselect_all_stages_none oneFileWorld
    { cancelForms with stageRun := some ["deselect_all"] } [] []
    (by decide) (by decide) rfl (by decide)

/-- The Add Remote case body after validation: the failure-prefixed message
comes back, with the remote listing suppressed, exactly when the add
result's text contains "error" or "fatal". -/
theorem addRemoteCase_classification (w : GitWorld) (name url : String)
    (hn : name ≠ "") (hu : url ≠ "") :
    ((addRemoteCase w name url).1 =
        "Failed to add remote: " ++ executeGitCommand w ["remote", "add", name, url] ∧
      ["remote", "-v"] ∉ (addRemoteCase w name url).2)
    ↔ (strContains (executeGitCommand w ["remote", "add", name, url]) "error" = true ∨
       strContains (executeGitCommand w ["remote", "add", name, url]) "fatal" = true) := by
  unfold addRemoteCase
  rw [if_neg (by rintro (h | h); exact hn h; exact hu h)]
  cases hb : (strContains (executeGitCommand w ["remote", "add", name, url]) "error"
      || strContains (executeGitCommand w ["remote", "add", name, url]) "fatal") with
  | false =>
      rw [if_neg (by simp [hb])]
      simp only [Bool.or_eq_false_iff] at hb
      apply iff_of_false
      · rintro ⟨hmsg, -⟩
        have h2 := congrArg (fun s => s.data.head?) hmsg
        simp [String.data_append] at h2
      · rintro (h | h)
        · rw [hb.1] at h; exact Bool.false_ne_true h
        · rw [hb.2] at h; exact Bool.false_ne_true h
  | true =>
      rw [if_pos (by simp [hb])]
      refine iff_of_true ⟨rfl, ?_⟩ ?_
      · simp
      · simpa [Bool.or_eq_true] using hb

/-- The Push case body after the form: the failure-prefixed message comes
back exactly when the push result's text contains "error" or "fatal". -/
theorem pushCase_classification (w : GitWorld) (cb selR br : String) (up : Bool) :
    ((pushCase w cb selR br up).1 =
        "Push failed: " ++ executeGitCommand w
          (["push"] ++ (if up then ["--set-upstream"] else [])
            ++ [selR, if br = "" then cb else br]))
    ↔ (strContains (executeGitCommand w
          (["push"] ++ (if up then ["--set-upstream"] else [])
            ++ [selR, if br = "" then cb else br])) "error" = true ∨
        strContains (executeGitCommand w
          (["push"] ++ (if up then ["--set-upstream"] else [])
            ++ [selR, if br = "" then cb else br])) "fatal" = true) := by
  unfold pushCase
  cases hb : (strContains (executeGitCommand w
        (["push"] ++ (if up then ["--set-upstream"] else [])
          ++ [selR, if br = "" then cb else br])) "error"
      || strContains (executeGitCommand w
        (["push"] ++ (if up then ["--set-upstream"] else [])
          ++ [selR, if br = "" then cb else br])) "fatal") with
  | false =>
      simp only [hb]
      simp only [Bool.or_eq_false_iff] at hb
      apply iff_of_false
      · intro hmsg
        have h2 := congrArg (fun s => s.data.head?) hmsg
        simp [String.data_append] at h2
      · rintro (h | h)
        · rw [hb.1] at h; exact Bool.false_ne_true h
        · rw [hb.2] at h; exact Bool.false_ne_true h
  | true =>
      simp only [hb]
      refine iff_of_true rfl ?_
      simpa [Bool.or_eq_true] using hb

/-- Claim C5: in the Add Remote path (with both fields nonempty) and in the
Push path (with the branch query and remote listing succeeding), the issued
command's result text is classified as a failure — yielding the
failure-prefixed message, and for Add Remote also suppressing the remote
listing — if and only if that text contains the case-sensitive substring
"error" or the case-sensitive substring "fatal".  The criterion inspects
only the result text produced by `executeGitCommand`, not the invocation's
exit status. -/
theorem C5_textual_failure_classification (w : GitWorld) (f : Forms)
    (name url : String) (hn : name ≠ "") (hu : url ≠ "")
    (ha : f.addRemoteRun = some (name, url))
    (a : String) (hadd : a = executeGitCommand w ["remote", "add", name, url])
    (selR br : String) (up : Bool) (hp : f.pushRun = some (selR, br, up))
    (cb : String)
    (hcb : cb = trimSpace (executeGitCommand w ["rev-parse", "--abbrev-ref", "HEAD"]))
    (hb1 : cb ≠ "") (hb2 : strContains cb "fatal" = false)
    (hr : executeGitCommand w ["remote"] ≠ "")
    (r : String)
    (hpr : r = executeGitCommand w
      (["push"] ++ (if up then ["--set-upstream"] else [])
        ++ [selR, if br = "" then cb else br])) :
    (((handleGitAction w f "Add Remote").1 = "Failed to add remote: " ++ a ∧
        ["remote", "-v"] ∉ (handleGitAction w f "Add Remote").2)
      ↔ (strContains a "error" = true ∨ strContains a "fatal" = true)) ∧
    ((handleGitAction w f "Push to Remote").1 = "Push failed: " ++ r
      ↔ (strContains r "error" = true ∨ strContains r "fatal" = true)) := by
  subst hadd hcb hpr
  constructor
  · rw [handle_addRemote_eq w f name url ha]
    exact addRemoteCase_classification w name url hn hu
  · rw [handle_push_eq w f selR br up hp hb1 hb2 hr]
    exact pushCase_classification w
      (trimSpace (executeGitCommand w ["rev-parse", "--abbrev-ref", "HEAD"]))
      selR br up

/-- Witness for C5: an add-remote result carrying "fatal" and a push result
carrying "error" are both classified as failures. -/
theorem C5_witness :
    (((handleGitAction mixedWorld doneForms "Add Remote").1 =
        "Failed to add remote: " ++ "fatal: remote origin already exists" ∧
      ["remote", "-v"] ∉ (handleGitAction mixedWorld doneForms "Add Remote").2)) ∧
    (handleGitAction mixedWorld doneForms "Push to Remote").1 =
      "Push failed: " ++ "error: failed to push" := by
  obtain ⟨h1, h2⟩ := C5_textual_failure_classification mixedWorld doneForms
    "origin" "u" (by decide) (by decide) rfl
    "fatal: remote origin already exists" (by decide)
    "origin" "" false rfl
    "main" (by decide) (by decide) (by decide) (by decide)
    "error: failed to push" (by decide)
  exact ⟨h1.mpr (Or.inr (by decide)), h2.mpr (Or.inl (by decide))⟩

end Gitify
